import Mathlib

/-!
Shallow embedding of the `concurrent_programming_cpp` repository:
`thread_guard` and `scoped_thread` (listings 3 and 4) over a model of
`std::thread` handles, the demo `main` of listing 3, and the sequential
`write_to_file` of listing 2.

A worker handle (`std::thread`) is modelled as a status plus the effect the
worker performs on shared state.  The effect becomes visible to the joining
thread when `join` returns; an interleaved small-step system refines this
for the happens-before claim.
-/

namespace CC

/-- The lifecycle states of a `std::thread` handle: default-constructed or
moved-from (`unstarted`), holding a launched unit of work (`running`),
already joined (`joined`), or detached (`detached`). -/
inductive HandleStatus
  | unstarted
  | running
  | joined
  | detached
deriving DecidableEq, Repr

/-- Model of a `std::thread` handle over shared state `σ`: its lifecycle
status and the effect its unit of work performs on the shared state. -/
structure Thread (σ : Type) where
  status : HandleStatus
  work : σ → σ

/-- `std::thread::joinable()`: true exactly in the `running` state. -/
def Thread.joinable {σ : Type} (t : Thread σ) : Bool :=
  decide (t.status = .running)

/-- A default-constructed (or moved-from) `std::thread`: no associated work. -/
def Thread.defaultThread {σ : Type} : Thread σ :=
  ⟨.unstarted, id⟩

/-- Constructing a `std::thread` from a callable: a launched, joinable handle
whose unit of work performs effect `f` on the shared state. -/
def Thread.launch {σ : Type} (f : σ → σ) : Thread σ :=
  ⟨.running, f⟩

/-- Errors raised by `std::thread` operations on a non-joinable handle
(`std::system_error` in C++). -/
inductive JoinError
  | notJoinable
deriving DecidableEq, Repr

/-- `std::thread::join()`: blocks until the worker terminates, making its
effect on the shared state visible, and moves the handle to `joined`.
Calling it on a non-joinable handle is an error. -/
def Thread.join {σ : Type} (t : Thread σ) (s : σ) :
    Except JoinError (Thread σ × σ) :=
  if t.joinable then .ok (⟨.joined, t.work⟩, t.work s) else .error .notJoinable

/-- `std::thread::detach()`: abandons the handle; error on a non-joinable
handle. -/
def Thread.detach {σ : Type} (t : Thread σ) :
    Except JoinError (Thread σ) :=
  if t.joinable then .ok ⟨.detached, t.work⟩ else .error .notJoinable

/-- `std::move` out of a handle: the moved-to value receives the handle's
state, the moved-from handle is left as if default-constructed. -/
def Thread.moveOut {σ : Type} (t : Thread σ) : Thread σ × Thread σ :=
  (t, Thread.defaultThread)

/-- `thread_guard::thread_guard(std::thread& t_)`: stores a reference, does
nothing to the referenced handle. -/
def thread_guard_ctor {σ : Type} (t : Thread σ) : Thread σ :=
  t

/-- `thread_guard::~thread_guard()`: `if (t.joinable()) t.join();`. -/
def thread_guard_dtor {σ : Type} (t : Thread σ) (s : σ) :
    Except JoinError (Thread σ × σ) :=
  if t.joinable then t.join s else .ok (t, s)

/-- The error thrown by `scoped_thread`'s constructor:
`std::logic_error("No thread")`, the spec's InvalidArgument construction
error, carrying its message. -/
inductive CtorError
  | invalidArgument (msg : String)
deriving DecidableEq, Repr

/-- The owning wrapper `scoped_thread`: holds the moved-in handle. -/
structure scoped_thread (σ : Type) where
  t : Thread σ

/-- `scoped_thread::scoped_thread(std::thread t_): t(std::move(t_))`
followed by `if (!t.joinable()) throw std::logic_error("No thread");`.
The by-value parameter moves the caller's handle in at the call site, so
the caller is left with the moved-from residue whether or not construction
succeeds; the result pairs the construction outcome with that residue. -/
def scoped_thread_ctor {σ : Type} (t_ : Thread σ) :
    Except CtorError (scoped_thread σ) × Thread σ :=
  let m := t_.moveOut
  if m.1.joinable then (.ok ⟨m.1⟩, m.2)
  else (.error (.invalidArgument "No thread"), m.2)

/-- `scoped_thread::~scoped_thread()`: unconditionally `t.join();`. -/
def scoped_thread_dtor {σ : Type} (st : scoped_thread σ) (s : σ) :
    Except JoinError (Thread σ × σ) :=
  st.t.join s

end CC

namespace CC

/-- Claim C1: constructing `scoped_thread` from a non-joinable handle fails
synchronously with the InvalidArgument construction error
(`std::logic_error("No thread")`) and no thread is ever joined (the
moved-from residue is left default-constructed, never `joined`); from a
joinable handle, construction succeeds with the wrapper owning the handle. -/
theorem c1_owning_ctor_validation {σ : Type} (t : Thread σ) :
    (t.joinable = false →
      scoped_thread_ctor t =
        (.error (.invalidArgument "No thread"), Thread.defaultThread) ∧
      (scoped_thread_ctor t).2.status ≠ .joined) ∧
    (t.joinable = true →
      scoped_thread_ctor t = (.ok ⟨t⟩, Thread.defaultThread)) := by
  constructor
  · intro h
    simp [scoped_thread_ctor, Thread.moveOut, h, Thread.defaultThread]
  · intro h
    simp [scoped_thread_ctor, Thread.moveOut, h]

/-- Witness for C1 at concrete handles: a default-constructed handle is
rejected with the InvalidArgument error, a launched handle is accepted. -/
theorem c1_owning_ctor_validation_witness :
    scoped_thread_ctor (Thread.defaultThread : Thread Nat) =
      (.error (.invalidArgument "No thread"), Thread.defaultThread) ∧
    scoped_thread_ctor (Thread.launch (fun n : Nat => n + 1)) =
      (.ok ⟨Thread.launch (fun n : Nat => n + 1)⟩, Thread.defaultThread) := by
  refine ⟨((c1_owning_ctor_validation Thread.defaultThread).1 rfl).1, ?_⟩
  exact (c1_owning_ctor_validation (Thread.launch (fun n : Nat => n + 1))).2 rfl

end CC

namespace CC

/-- Claim C2: for a `scoped_thread` successfully constructed from a joinable
handle, destruction unconditionally joins the owned handle (applying the
worker's effect to the shared state) and afterwards the handle is in the
`joined` state and no longer joinable. -/
theorem c2_owning_dtor_joins {σ : Type} (t : Thread σ) (s : σ)
    (h : t.joinable = true) :
    (scoped_thread_ctor t).1 = .ok ⟨t⟩ ∧
    scoped_thread_dtor ⟨t⟩ s = .ok (⟨.joined, t.work⟩, t.work s) ∧
    (Thread.joinable (σ := σ) ⟨.joined, t.work⟩) = false := by
  have h' : t.status = .running := by simpa [Thread.joinable] using h
  refine ⟨?_, ?_, by simp [Thread.joinable]⟩
  · simp [scoped_thread_ctor, Thread.moveOut, Thread.joinable, h']
  · simp [scoped_thread_dtor, Thread.join, h]

/-- Witness for C2 at a concrete joinable handle over `Nat` state. -/
theorem c2_owning_dtor_joins_witness :
    (scoped_thread_ctor (Thread.launch (fun n : Nat => n + 1))).1 =
      .ok ⟨Thread.launch (fun n : Nat => n + 1)⟩ ∧
    scoped_thread_dtor ⟨Thread.launch (fun n : Nat => n + 1)⟩ 0 =
      .ok (⟨.joined, fun n : Nat => n + 1⟩, 1) ∧
    (Thread.joinable (σ := Nat) ⟨.joined, fun n : Nat => n + 1⟩) = false :=
  c2_owning_dtor_joins (Thread.launch (fun n : Nat => n + 1)) 0 rfl

/-- The guard destructor on a joinable handle: joins it. -/
theorem thread_guard_dtor_joinable {σ : Type} (t : Thread σ) (s : σ)
    (h : t.joinable = true) :
    thread_guard_dtor t s = .ok (⟨.joined, t.work⟩, t.work s) := by
  simp [thread_guard_dtor, Thread.join, h]

/-- The guard destructor on a non-joinable handle: a no-op, never an error. -/
theorem thread_guard_dtor_not_joinable {σ : Type} (t : Thread σ) (s : σ)
    (h : t.joinable = false) :
    thread_guard_dtor t s = .ok (t, s) := by
  simp [thread_guard_dtor, h]

/-- Claim C3: `thread_guard`'s destructor joins the referenced handle iff it
is joinable at disposal time; on a non-joinable handle (already joined or
detached) disposal is a no-op and raises no double-join error. -/
theorem c3_guard_dtor_conditional_join {σ : Type} (t : Thread σ) (s : σ) :
    (t.joinable = true →
      thread_guard_dtor t s = .ok (⟨.joined, t.work⟩, t.work s)) ∧
    (t.joinable = false →
      thread_guard_dtor t s = .ok (t, s)) :=
  ⟨thread_guard_dtor_joinable t s, thread_guard_dtor_not_joinable t s⟩

/-- Witness for C3: a joinable handle is joined by the guard's destructor; an
already-joined handle is left untouched with no error. -/
theorem c3_guard_dtor_conditional_join_witness :
    thread_guard_dtor (Thread.launch (fun n : Nat => n + 1)) 0 =
      .ok (⟨.joined, fun n : Nat => n + 1⟩, 1) ∧
    thread_guard_dtor (⟨.joined, id⟩ : Thread Nat) 5 =
      .ok (⟨.joined, id⟩, 5) :=
  ⟨(c3_guard_dtor_conditional_join (Thread.launch (fun n : Nat => n + 1)) 0).1 rfl,
   (c3_guard_dtor_conditional_join (⟨.joined, id⟩ : Thread Nat) 5).2 rfl⟩

/-- Claim C8: after a successful owning construction from a joinable handle,
the caller's handle is left moved-from and non-joinable, so the caller can
no longer join or detach it: only the wrapper can join the work. -/
theorem c8_move_leaves_source_nonjoinable {σ : Type} (t : Thread σ) (s : σ)
    (h : t.joinable = true) :
    (scoped_thread_ctor t).1 = .ok ⟨t⟩ ∧
    (scoped_thread_ctor t).2.joinable = false ∧
    (scoped_thread_ctor t).2.join s = .error .notJoinable ∧
    (scoped_thread_ctor t).2.detach = .error .notJoinable := by
  have h' : t.status = .running := by simpa [Thread.joinable] using h
  refine ⟨?_, ?_, ?_, ?_⟩ <;>
    simp [scoped_thread_ctor, Thread.moveOut, h', Thread.defaultThread,
      Thread.joinable, Thread.join, Thread.detach]

/-- Witness for C8 at a concrete launched handle over `Nat` state. -/
theorem c8_move_leaves_source_nonjoinable_witness :
    (scoped_thread_ctor (Thread.launch (fun n : Nat => n + 1))).1 =
      .ok ⟨Thread.launch (fun n : Nat => n + 1)⟩ ∧
    (scoped_thread_ctor (Thread.launch (fun n : Nat => n + 1))).2.joinable = false ∧
    (scoped_thread_ctor (Thread.launch (fun n : Nat => n + 1))).2.join 0 =
      .error .notJoinable ∧
    (scoped_thread_ctor (Thread.launch (fun n : Nat => n + 1))).2.detach =
      .error .notJoinable :=
  c8_move_leaves_source_nonjoinable (Thread.launch (fun n : Nat => n + 1)) 0 rfl

/-- Claim C9: constructing a `thread_guard` leaves the referenced handle
completely unchanged in every state, and the only operation the guard ever
performs on it is the conditional join at destruction: destruction preserves
the handle's unit of work, is the identity on a non-joinable handle, and
only moves a joinable handle to `joined`. -/
theorem c9_guard_frame {σ : Type} (t : Thread σ) (s : σ) :
    thread_guard_ctor t = t ∧
    ∃ p : Thread σ × σ, thread_guard_dtor t s = .ok p ∧
      p.1.work = t.work ∧
      (t.joinable = false → p = (t, s)) ∧
      (t.joinable = true → p.1.status = .joined ∧ p.2 = t.work s) := by
  refine ⟨rfl, ?_⟩
  by_cases h : t.joinable
  · exact ⟨(⟨.joined, t.work⟩, t.work s),
      thread_guard_dtor_joinable t s h, rfl,
      fun hf => absurd h (by simp [hf]), fun _ => ⟨rfl, rfl⟩⟩
  · refine ⟨(t, s), thread_guard_dtor_not_joinable t s (by simpa using h),
      rfl, fun _ => rfl, fun ht => absurd ht h⟩

/-- Witness for C9 at a concrete launched handle over `Nat` state: the
guard's constructor changes nothing and its destructor joins, preserving
the unit of work. -/
theorem c9_guard_frame_witness :
    thread_guard_ctor (Thread.launch (fun n : Nat => n + 1)) =
      Thread.launch (fun n : Nat => n + 1) ∧
    ∃ p : Thread Nat × Nat,
      thread_guard_dtor (Thread.launch (fun n : Nat => n + 1)) 0 = .ok p ∧
      p.1.work = (Thread.launch (fun n : Nat => n + 1)).work ∧
      p.1.status = .joined ∧ p.2 = 1 := by
  obtain ⟨h1, p, hp, hw, -, hj⟩ :=
    c9_guard_frame (Thread.launch (fun n : Nat => n + 1)) 0
  obtain ⟨hs, hv⟩ := hj rfl
  exact ⟨h1, p, hp, hw, hs, hv⟩

end CC

namespace CC

/-- How the enclosing scope exits in the C++ sources: normal fall-through,
an early `return`, or stack unwinding due to an exception elsewhere. -/
inductive ExitKind
  | normal
  | earlyReturn
  | unwind
deriving DecidableEq, Repr

/-- A block that constructs a `thread_guard` around `t`, runs an arbitrary
body (which may itself operate on the referenced handle and the shared
state and may exit by any `ExitKind`), and then — on every exit path, as
C++ guarantees for automatic-storage objects — runs the guard's destructor. -/
def run_guarded_scope {σ : Type} (t : Thread σ) (s : σ)
    (body : Thread σ → σ → ExitKind × Thread σ × σ) :
    ExitKind × Except JoinError (Thread σ × σ) :=
  let r := body (thread_guard_ctor t) s
  (r.1, thread_guard_dtor r.2.1 r.2.2)

/-- A block that owns a `scoped_thread` around `st`, runs an arbitrary body
on the shared state (exiting by any `ExitKind`), and then — on every exit
path — runs the wrapper's destructor. -/
def run_scoped_scope {σ : Type} (st : scoped_thread σ) (s : σ)
    (body : σ → ExitKind × σ) :
    ExitKind × Except JoinError (Thread σ × σ) :=
  let r := body s
  (r.1, scoped_thread_dtor st r.2)

/-- Claim C4: for every body — hence for normal fall-through, early return
and unwinding alike — the destructor runs at scope exit: the guard joins the
handle the body left joinable (and is a no-op otherwise), the owning
wrapper always joins; and destruction is the only trigger for the join —
neither constructor ever joins the handle (the guard's constructor is the
identity, the owning constructor keeps the owned handle's status and leaves
the moved-from residue `unstarted`). -/
theorem c4_join_on_every_exit {σ : Type} (t : Thread σ) (s : σ)
    (body : Thread σ → σ → ExitKind × Thread σ × σ)
    (bodyS : σ → ExitKind × σ) :
    ((run_guarded_scope t s body).1 = (body t s).1 ∧
      ∃ p : Thread σ × σ, (run_guarded_scope t s body).2 = .ok p ∧
        ((body t s).2.1.joinable = true →
          p.1.status = .joined ∧ p.2 = (body t s).2.1.work (body t s).2.2) ∧
        ((body t s).2.1.joinable = false → p = (body t s).2)) ∧
    (t.joinable = true →
      (run_scoped_scope ⟨t⟩ s bodyS).1 = (bodyS s).1 ∧
      (run_scoped_scope ⟨t⟩ s bodyS).2 =
        .ok (⟨.joined, t.work⟩, t.work (bodyS s).2)) ∧
    thread_guard_ctor t = t ∧
    (scoped_thread_ctor t).2.status = .unstarted ∧
    (∀ st' : scoped_thread σ,
      (scoped_thread_ctor t).1 = .ok st' → st'.t.status = t.status) := by
  refine ⟨⟨rfl, ?_⟩, ?_, rfl, ?_, ?_⟩
  · by_cases h : ((body t s).2.1.joinable : Bool)
    · exact ⟨(⟨.joined, (body t s).2.1.work⟩, (body t s).2.1.work (body t s).2.2),
        thread_guard_dtor_joinable _ _ h,
        fun _ => ⟨rfl, rfl⟩, fun hf => absurd h (by simp [hf])⟩
    · exact ⟨(body t s).2,
        thread_guard_dtor_not_joinable _ _ (by simpa using h),
        fun ht => absurd ht h, fun _ => rfl⟩
  · intro h
    exact ⟨rfl, by simp [run_scoped_scope, scoped_thread_dtor, Thread.join, h]⟩
  · simp [scoped_thread_ctor, Thread.moveOut, Thread.defaultThread]
    by_cases h : (t.joinable : Bool) <;>
      simp [Thread.joinable] at h <;> simp [h, Thread.joinable]
  · intro st' hok
    by_cases h : (t.joinable : Bool)
    · have h' : t.status = .running := by simpa [Thread.joinable] using h
      have : (scoped_thread_ctor t).1 = .ok ⟨t⟩ := by
        simp [scoped_thread_ctor, Thread.moveOut, Thread.joinable, h']
      rw [this] at hok
      cases hok
      rfl
    · have h' : ¬ t.status = .running := by simpa [Thread.joinable] using h
      have : (scoped_thread_ctor t).1 =
          .error (.invalidArgument "No thread") := by
        simp [scoped_thread_ctor, Thread.moveOut, Thread.joinable, h']
      rw [this] at hok
      cases hok

/-- Witness for C4: a concrete launched handle over `Nat` state with a body
that exits by unwinding, leaving the handle joinable; the destructors still
join. -/
theorem c4_join_on_every_exit_witness :
    ((run_guarded_scope (Thread.launch (fun n : Nat => n + 1)) 0
        (fun t' s' => (.unwind, t', s'))).1 = .unwind ∧
      ∃ p : Thread Nat × Nat,
        (run_guarded_scope (Thread.launch (fun n : Nat => n + 1)) 0
          (fun t' s' => (.unwind, t', s'))).2 = .ok p ∧
        ((Thread.launch (fun n : Nat => n + 1)).joinable = true →
          p.1.status = .joined ∧ p.2 = 1) ∧
        ((Thread.launch (fun n : Nat => n + 1)).joinable = false →
          p = (Thread.launch (fun n : Nat => n + 1), 0)) ∧
    (run_scoped_scope (⟨Thread.launch (fun n : Nat => n + 1)⟩ : scoped_thread Nat) 0
        (fun s' => (.unwind, s'))).2 =
      .ok (⟨.joined, fun n : Nat => n + 1⟩, 1)) := by
  obtain ⟨⟨h1, p, hp, hj, hnj⟩, h2, -⟩ :=
    c4_join_on_every_exit (Thread.launch (fun n : Nat => n + 1)) 0
      (fun t' s' => (.unwind, t', s')) (fun s' => (.unwind, s'))
  exact ⟨h1, p, hp, hj, hnj, (h2 rfl).2⟩

end CC

namespace CC

/-- The operations the sources perform on a worker handle: the `std::thread`
primitives (`join`, `detach`, moving out) and the four wrapper operations.
A failed primitive (`std::system_error` thrown) leaves the handle
unchanged. -/
inductive HOp
  | joinOp
  | detachOp
  | moveOutOp
  | guardCtorOp
  | guardDtorOp
  | scopedCtorOp
deriving DecidableEq, Repr

/-- Apply one operation to a handle and the shared state.  Primitive
failures (joining or detaching a non-joinable handle) propagate as thrown
exceptions in C++ and leave the handle unchanged; `scopedCtorOp` tracks the
caller's handle, which is left moved-from. -/
def applyOp {σ : Type} (p : Thread σ × σ) : HOp → Thread σ × σ
  | .joinOp =>
      match p.1.join p.2 with
      | .ok q => q
      | .error _ => p
  | .detachOp =>
      match p.1.detach with
      | .ok t' => (t', p.2)
      | .error _ => p
  | .moveOutOp => (p.1.moveOut.2, p.2)
  | .guardCtorOp => (thread_guard_ctor p.1, p.2)
  | .guardDtorOp =>
      match thread_guard_dtor p.1 p.2 with
      | .ok q => q
      | .error _ => p
  | .scopedCtorOp => ((scoped_thread_ctor p.1).2, p.2)

/-- A whole sequence of operations applied to a handle. -/
def applyOps {σ : Type} (p : Thread σ × σ) (ops : List HOp) : Thread σ × σ :=
  List.foldl applyOp p ops

/-- Spec-side view of a handle, following the spec's words: whether the
handle currently holds "an actually-launched unit of work" that "has not
yet been joined or detached" (`launchedWork`), holds no work (never
launched or moved away, `noWork`), or held work that has since been joined
or detached. -/
inductive Assoc
  | noWork
  | launchedWork
  | joinedWork
  | detachedWork
deriving DecidableEq, Repr

/-- Spec-side transition of the association under one operation: joining or
a guard destructor turns launched work into joined work, detaching into
detached work, moving the handle out (including into an owning wrapper)
leaves the caller's handle with no work, and the guard constructor changes
nothing. -/
def specAssocStep (a : Assoc) : HOp → Assoc
  | .joinOp => if a = .launchedWork then .joinedWork else a
  | .detachOp => if a = .launchedWork then .detachedWork else a
  | .moveOutOp => .noWork
  | .guardCtorOp => a
  | .guardDtorOp => if a = .launchedWork then .joinedWork else a
  | .scopedCtorOp => .noWork

/-- The abstraction from the code's handle status to the spec-side view. -/
def statusAssoc : HandleStatus → Assoc
  | .unstarted => .noWork
  | .running => .launchedWork
  | .joined => .joinedWork
  | .detached => .detachedWork

/-- One-step simulation: every operation moves the handle's status exactly
as the spec-side association moves. -/
theorem applyOp_status {σ : Type} (p : Thread σ × σ) (o : HOp) :
    statusAssoc (applyOp p o).1.status =
      specAssocStep (statusAssoc p.1.status) o := by
  obtain ⟨⟨st, w⟩, s⟩ := p
  cases o <;> cases st <;>
    simp [applyOp, specAssocStep, statusAssoc, Thread.join, Thread.detach,
      Thread.joinable, Thread.moveOut, Thread.defaultThread,
      thread_guard_ctor, thread_guard_dtor, scoped_thread_ctor]

/-- Many-step simulation over an operation sequence. -/
theorem applyOps_status {σ : Type} (ops : List HOp) (p : Thread σ × σ) :
    statusAssoc (applyOps p ops).1.status =
      List.foldl specAssocStep (statusAssoc p.1.status) ops := by
  induction ops generalizing p with
  | nil => rfl
  | cons o rest ih =>
      have hstep : applyOps p (o :: rest) = applyOps (applyOp p o) rest := rfl
      rw [hstep, ih (applyOp p o), applyOp_status]
      rfl

/-- Claim C6: after any sequence of wrapper and primitive operations, a
handle is joinable iff, in the spec-side view, it still holds an
actually-launched unit of work that has not yet been joined or detached —
i.e. every operation preserves the spec's characterisation of
joinability. -/
theorem c6_joinable_characterisation {σ : Type} (t : Thread σ) (s : σ)
    (ops : List HOp) :
    (applyOps (t, s) ops).1.joinable =
      decide (List.foldl specAssocStep (statusAssoc t.status) ops =
        .launchedWork) := by
  have h := applyOps_status ops (t, s)
  rw [Thread.joinable, ← h]
  cases (applyOps (t, s) ops).1.status <;> simp [statusAssoc]

end CC

namespace CC

/-- Fold a list of worker effects over the shared state, in program order. -/
def applyEffects {σ : Type} (effs : List (σ → σ)) (s : σ) : σ :=
  List.foldl (fun a e => e a) s effs

/-- Interleaved system of the worker thread and the destructing thread:
the shared state, the effects the worker has not yet performed, and whether
the destructor's `join()` call has returned. -/
structure Sys (σ : Type) where
  shared : σ
  pending : List (σ → σ)
  joinReturned : Bool

/-- One interleaving step: either the worker performs its next effect, or —
only once the worker has terminated (no pending effects) — the blocked
`join()` in the wrapper's destructor returns.  `join` blocking until
termination is exactly what makes the second rule demand `pending = []`. -/
inductive SysStep {σ : Type} : Sys σ → Sys σ → Prop
  | worker (e : σ → σ) (rest : List (σ → σ)) (s : σ) (jf : Bool) :
      SysStep ⟨s, e :: rest, jf⟩ ⟨e s, rest, jf⟩
  | joinRet (s : σ) : SysStep ⟨s, [], false⟩ ⟨s, [], true⟩

/-- Finitely many interleaving steps. -/
inductive SysSteps {σ : Type} : Sys σ → Sys σ → Prop
  | refl (a : Sys σ) : SysSteps a a
  | tail {a b c : Sys σ} : SysSteps a b → SysStep b c → SysSteps a c

/-- Invariant of the interleaved system: the still-pending effects applied
to the current shared state give the final state, and the join can only
have returned after the worker terminated. -/
theorem sysSteps_invariant {σ : Type} {effs : List (σ → σ)} {s0 : σ}
    {st : Sys σ} (h : SysSteps ⟨s0, effs, false⟩ st) :
    applyEffects st.pending st.shared = applyEffects effs s0 ∧
    (st.joinReturned = true → st.pending = []) := by
  induction h with
  | refl => exact ⟨rfl, fun h' => by simp at h'⟩
  | tail hsteps hstep ih =>
      obtain ⟨ih1, ih2⟩ := ih
      cases hstep with
      | worker e rest s jf =>
          refine ⟨?_, ?_⟩
          · rw [← ih1]; rfl
          · intro hj
            exact absurd (ih2 hj) (by simp)
      | joinRet s => exact ⟨ih1, fun _ => rfl⟩

/-- Claim C7: in every interleaving, once the `join()` issued by the
wrapper's destructor has returned, the worker has terminated and all of its
effects, in order, are visible in the shared state seen by the destructing
thread (the happens-before guarantee of `join`). -/
theorem c7_join_happens_before {σ : Type} (effs : List (σ → σ)) (s0 : σ)
    (st : Sys σ) (h : SysSteps ⟨s0, effs, false⟩ st)
    (hj : st.joinReturned = true) :
    st.pending = [] ∧ st.shared = applyEffects effs s0 := by
  obtain ⟨h1, h2⟩ := sysSteps_invariant h
  have hp := h2 hj
  refine ⟨hp, ?_⟩
  rw [← h1, hp]
  rfl

/-- Witness for C7: a two-step concrete interleaving in which a worker
increments the shared counter once and then `join` returns; the final
counter is 1. -/
theorem c7_join_happens_before_witness :
    (⟨1, [], true⟩ : Sys Nat).pending = [] ∧
    (⟨1, [], true⟩ : Sys Nat).shared =
      applyEffects [fun n : Nat => n + 1] 0 :=
  c7_join_happens_before [fun n : Nat => n + 1] 0 ⟨1, [], true⟩
    (SysSteps.tail
      (SysSteps.tail (SysSteps.refl ⟨0, [fun n : Nat => n + 1], false⟩)
        (SysStep.worker (fun n : Nat => n + 1) [] 0 false))
      (SysStep.joinRet 1))
    rfl

end CC

namespace CC

/-- `do_something(int i)` from listing 3: `std::cout << i << std::endl;` —
appends `i` to the program's output and leaves the value untouched. -/
def do_something (i : Int) (out : List Int) : List Int :=
  out ++ [i]

/-- The loop of `func::operator()`:
`for (unsigned j = 0; j < 1000000; ++j) do_something(i);`, indexed by the
number of remaining iterations. -/
def func_loop : Nat → Int → List Int → List Int
  | 0, _, out => out
  | j + 1, i, out => func_loop j i (do_something i out)

/-- `func::operator()` as an effect on listing 3's shared state
`(some_local_state, standard output)`: it reads the referenced counter and
calls `do_something` on it 1,000,000 times; it never writes the counter. -/
def my_func_effect : Int × List Int → Int × List Int :=
  fun s => (s.1, func_loop 1000000 s.1 s.2)

/-- `main` of listing 3: `int some_local_state = 0;` then
`std::thread t1(my_func); thread_guard g1(t1); return 0;` — the
`scoped_thread` use is commented out in the source.  On scope exit the
guard's destructor joins `t1`.  Result: final shared state and the final
handle. -/
def listing3_main : (Int × List Int) × Thread (Int × List Int) :=
  let s0 : Int × List Int := (0, [])
  let t1 := Thread.launch my_func_effect
  let g1 := thread_guard_ctor t1
  match thread_guard_dtor g1 s0 with
  | .ok q => (q.2, q.1)
  | .error _ => (s0, g1)

/-- Closed form of the worker's loop: it only appends `j` copies of the
counter's value to the output. -/
theorem func_loop_eq (j : Nat) (i : Int) (out : List Int) :
    func_loop j i out = out ++ List.replicate j i := by
  induction j generalizing out with
  | zero => simp [func_loop]
  | succ n ih =>
      rw [func_loop, do_something, ih]
      simp [List.replicate_succ]

/-- The worker's loop appends exactly one output entry per iteration. -/
theorem func_loop_length (j : Nat) (i : Int) (out : List Int) :
    (func_loop j i out).length = out.length + j := by
  induction j generalizing out with
  | zero => simp [func_loop]
  | succ n ih =>
      rw [func_loop, do_something, ih]
      simp [List.length_append]
      omega

/-- Evaluation of listing 3's `main`: the guard joins the launched thread,
the worker's effect leaves the counter at 0 and fills the output. -/
theorem listing3_main_eq :
    listing3_main =
      ((0, func_loop 1000000 0 []), ⟨.joined, my_func_effect⟩) := by
  rw [listing3_main]
  simp [thread_guard_ctor, thread_guard_dtor, Thread.join, Thread.joinable,
    Thread.launch]
  rw [my_func_effect]

/-- The output component of listing 3's final shared state. -/
theorem listing3_main_output : listing3_main.1.2 = func_loop 1000000 0 [] := by
  rw [listing3_main_eq]

/-- Claim C5 counterexample: in the source's concrete scenario the worker
never increments the shared counter — `func::operator()` calls
`do_something(i)`, which prints `i` — so after the wrapper's scope ends the
counter is 0, not 1,000,000. -/
theorem c5_counter_not_million :
    ¬ (listing3_main.1.1 = 1000000) := by
  simp [listing3_main_eq]

/-- Claim C5 amended: in the source's concrete scenario the worker passes
the shared counter to `do_something` (which prints it) 1,000,000 times
without modifying it, and `main` wraps the launched thread with the
borrowing `thread_guard` (the owning-variant use is commented out); after
the wrapper's scope ends the counter still equals 0, the output holds
exactly 1,000,000 entries, and the handle is joined and no longer
joinable. -/
theorem c5_listing3_scenario :
    listing3_main.1.1 = 0 ∧
    listing3_main.1.2.length = 1000000 ∧
    listing3_main.2.status = .joined ∧
    listing3_main.2.joinable = false := by
  refine ⟨?_, ?_, ?_, ?_⟩
  · rw [listing3_main_eq]
  · rw [listing3_main_output, func_loop_length]
    simp
  · rw [listing3_main_eq]
  · rw [listing3_main_eq]
    rfl

end CC

namespace CC

/-- The file system: maps a path to the file's lines, `none` when the file
does not exist (or, for the input side, cannot be opened). -/
def FS : Type := String → Option (List String)

/-- Update the file system at one path. -/
def fsUpdate (fs : FS) (p : String) (c : List String) : FS :=
  fun q => if q = p then some c else fs q

/-- The `while (getline(input, line)) output << line << std::endl;` loop:
each input line read is appended to the output stream's contents, in
order. -/
def copy_lines : List String → List String → List String
  | [], out => out
  | line :: rest, out => copy_lines rest (out ++ [line])

/-- The outcome of one `write_to_file` call: the returned `bool`, the file
system afterwards, whether the output stream was opened, and whether it was
explicitly closed. -/
structure WriteOutcome where
  ret : Bool
  fs : FS
  outputOpened : Bool
  outputClosed : Bool

/-- `write_to_file` from listing 2's sequential version.  The input stream
is opened (reading the file's lines at open time; `none` when opening
fails), the output stream is unconditionally opened in `std::ios::app`
mode, which creates the file when absent and otherwise keeps its contents.
If the input opened, every line is copied, both streams are explicitly
closed and `true` is returned; otherwise the function returns `false`
without closing the output stream (it was still opened, so the file
exists). -/
def write_to_file (fs : FS) (input_file_path ouput_file_path : String) :
    WriteOutcome :=
  let input := fs input_file_path
  let outInit := (fs ouput_file_path).getD []
  let fsOpened := fsUpdate fs ouput_file_path outInit
  match input with
  | some lines =>
      { ret := true,
        fs := fsUpdate fsOpened ouput_file_path (copy_lines lines outInit),
        outputOpened := true, outputClosed := true }
  | none =>
      { ret := false, fs := fsOpened,
        outputOpened := true, outputClosed := false }

/-- The copy loop appends the input lines, in order, after the existing
output contents. -/
theorem copy_lines_eq (lines out : List String) :
    copy_lines lines out = out ++ lines := by
  induction lines generalizing out with
  | nil => simp [copy_lines]
  | cons l rest ih =>
      rw [copy_lines, ih]
      simp

/-- Claim C10: `write_to_file` returns `true` iff the input file could be
opened; on `true` the output file afterwards holds its previous contents
(empty when it did not exist) followed by every input line in input order,
and both streams were closed; on `false` the output file was nonetheless
opened in append mode — so it exists afterwards, with unchanged contents —
and was not explicitly closed. -/
theorem c10_write_to_file_spec (fs : FS) (ip op : String) :
    ((write_to_file fs ip op).ret = true ↔ (fs ip).isSome = true) ∧
    ((write_to_file fs ip op).ret = true →
      (write_to_file fs ip op).fs op =
        some ((fs op).getD [] ++ (fs ip).getD []) ∧
      (write_to_file fs ip op).outputClosed = true) ∧
    ((write_to_file fs ip op).ret = false →
      (write_to_file fs ip op).fs op = some ((fs op).getD []) ∧
      (write_to_file fs ip op).outputOpened = true ∧
      (write_to_file fs ip op).outputClosed = false) := by
  cases h : fs ip with
  | none =>
      refine ⟨?_, ?_, ?_⟩
      · simp [write_to_file, h]
      · intro hr
        simp [write_to_file, h] at hr
      · intro _
        simp [write_to_file, h, fsUpdate]
  | some lines =>
      refine ⟨?_, ?_, ?_⟩
      · simp [write_to_file, h]
      · intro _
        simp [write_to_file, h, fsUpdate, copy_lines_eq]
      · intro hr
        simp [write_to_file, h] at hr

/-- Witness for C10 at a concrete file system: the input file has two
lines, the output file does not exist; the call succeeds and the output
file afterwards holds exactly the two lines.  A second call with a missing
input file returns `false`, yet the (empty) output file exists and is left
unclosed. -/
theorem c10_write_to_file_spec_witness :
    ((write_to_file
        (fun q => if q = "in.txt" then some ["a", "b"] else none)
        "in.txt" "out.txt").ret = true ↔
      ((fun q : String => if q = "in.txt" then some ["a", "b"] else none)
        "in.txt").isSome = true) ∧
    ((write_to_file
        (fun q => if q = "in.txt" then some ["a", "b"] else none)
        "in.txt" "out.txt").ret = true →
      (write_to_file
        (fun q => if q = "in.txt" then some ["a", "b"] else none)
        "in.txt" "out.txt").fs "out.txt" = some ["a", "b"] ∧
      (write_to_file
        (fun q => if q = "in.txt" then some ["a", "b"] else none)
        "in.txt" "out.txt").outputClosed = true) ∧
    ((write_to_file (fun _ => none) "in.txt" "out.txt").ret = false →
      (write_to_file (fun _ => none) "in.txt" "out.txt").fs "out.txt" =
        some [] ∧
      (write_to_file (fun _ => none) "in.txt" "out.txt").outputOpened = true ∧
      (write_to_file (fun _ => none) "in.txt" "out.txt").outputClosed =
        false) := by
  refine ⟨(c10_write_to_file_spec
      (fun q => if q = "in.txt" then some ["a", "b"] else none)
      "in.txt" "out.txt").1,
    fun hr => ?_,
    fun hr => ((c10_write_to_file_spec (fun _ => none) "in.txt" "out.txt").2.2) hr⟩
  have h := ((c10_write_to_file_spec
      (fun q => if q = "in.txt" then some ["a", "b"] else none)
      "in.txt" "out.txt").2.1) hr
  simpa using h

end CC
